import Mathlib

/-!
Verification of the label-structure inference engine and the evaluation
machinery of the panel-seg repository, as a shallow embedding in Lean 4.

Embedded sources:
* `compfigsep/utils/figure/label/labels_structure.py`
  (`LabelStructureEnum`, `LabelStructure.from_labels_list`,
  `LabelStructure.get_core_label_list`)
* `compfigsep/utils/detectron_utils/evaluator.py` and
  `panel_seg/utils/detectron_utils/evaluator.py`
  (`PanelSegAbstractEvaluator.evaluate`: gather / early return / merge)
* `compfigsep/data/export.py` (`export_figures_to_detectron_dict`)

The helper module `compfigsep/utils/figure/label/utils.py`
(`is_lower_char`, `is_upper_char`, `UC_ROMAN`, `LC_ROMAN`,
`UC_ROMAN_TO_INT`, `LC_ROMAN_TO_INT`) is not part of the sources at hand;
the definitions below that stand in for it are modelled from the spec and
are marked as such in their doc comments.
-/

namespace PanelSeg

/-- `LabelStructureEnum` (labels_structure.py, lines 41-64): the closed set
of ordinal label schemes, in declaration order NONE, NUMERICAL, LATIN_UC,
LATIN_LC, ROMAN_UC, ROMAN_LC, OTHER (enum values 0..6). -/
inductive LabelStructureEnum where
  | NONE
  | NUMERICAL
  | LATIN_UC
  | LATIN_LC
  | ROMAN_UC
  | ROMAN_LC
  | OTHER
deriving DecidableEq, Repr

/-- Position of a scheme in the fixed declaration order (its enum value). -/
def schemeIdx : LabelStructureEnum → Nat
  | .NONE => 0
  | .NUMERICAL => 1
  | .LATIN_UC => 2
  | .LATIN_LC => 3
  | .ROMAN_UC => 4
  | .ROMAN_LC => 5
  | .OTHER => 6

/-- Modelled from the spec: `is_lower_char` from the absent helper module
`compfigsep/utils/figure/label/utils.py`; spec 4.1: "a single-character
lowercase letter". The call site guards `len(label) == 1`, so the predicate
holds exactly on one-character strings whose character is an ASCII
lowercase letter. -/
def is_lower_char (char : String) : Bool :=
  match char.data with
  | [c] => 97 ≤ c.toNat && c.toNat ≤ 122
  | _ => false

/-- Modelled from the spec: `is_upper_char` from the absent helper module;
spec 4.1: "a single-character uppercase letter" (ASCII). -/
def is_upper_char (char : String) : Bool :=
  match char.data with
  | [c] => 65 ≤ c.toNat && c.toNat ≤ 90
  | _ => false

/-- Modelled from the spec: the fixed ordered lowercase roman-numeral table
`LC_ROMAN` from the absent helper module; spec 4.1 describes it as a
"bounded vocabulary, e.g. i..xxx or similar finite table" and spec 4.1
(canonical_sequence) as "a fixed ordered roman-numeral table". We take the
table i..xxx (30 entries). The classifier consults the key set of
`LC_ROMAN_TO_INT`, which is the same vocabulary. -/
def LC_ROMAN : List String :=
  ["i", "ii", "iii", "iv", "v", "vi", "vii", "viii", "ix", "x",
   "xi", "xii", "xiii", "xiv", "xv", "xvi", "xvii", "xviii", "xix", "xx",
   "xxi", "xxii", "xxiii", "xxiv", "xxv", "xxvi", "xxvii", "xxviii", "xxix", "xxx"]

/-- Modelled from the spec: the uppercase roman-numeral table `UC_ROMAN`,
the same fixed table upper-cased. -/
def UC_ROMAN : List String :=
  ["I", "II", "III", "IV", "V", "VI", "VII", "VIII", "IX", "X",
   "XI", "XII", "XIII", "XIV", "XV", "XVI", "XVII", "XVIII", "XIX", "XX",
   "XXI", "XXII", "XXIII", "XXIV", "XXV", "XXVI", "XXVII", "XXVIII", "XXIX", "XXX"]

/-- Success predicate of Python `int(label)` (labels_structure.py line 131):
an optional sign followed by a nonempty run of ASCII digits. (CPython also
strips surrounding whitespace and accepts underscore digit grouping; those
forms are elided here — no token in the repository's label vocabulary uses
them, and every claim below is insensitive to that fringe.) -/
def python_int_ok (s : String) : Bool :=
  match s.data with
  | [] => false
  | c :: cs =>
    if c = '-' || c = '+' then !cs.isEmpty && cs.all Char.isDigit
    else (c :: cs).all Char.isDigit

/-- Python exceptions relevant to the embedded code. -/
inductive PyError where
  | valueError
deriving DecidableEq, Repr

/-- Python `int(label)` as a fallible operation: raises `ValueError` exactly
when the string is not an integer literal. The computed value is discarded
by the caller (labels_structure.py line 131), so only success is recorded. -/
def int_exc (s : String) : Except PyError Unit :=
  if python_int_ok s then Except.ok () else Except.error PyError.valueError

/-- One iteration of the classification loop of
`LabelStructure.from_labels_list` (labels_structure.py, lines 113-151),
with the exception behaviour made explicit: the `ValueError` that
`int(label)` may raise is caught by the `try/except` block (lines 130-135)
and classification falls through to the roman-numeral checks; the final
`else` bucket is OTHER (with a logged warning, line 149 — logging is pure
observation and is not modelled). -/
def classify_label_exc (label : String) : Except PyError LabelStructureEnum :=
  if label.length = 1 && is_lower_char label then
    Except.ok LabelStructureEnum.LATIN_LC
  else if label.length = 1 && is_upper_char label then
    Except.ok LabelStructureEnum.LATIN_UC
  else
    match int_exc label with
    | Except.ok _ => Except.ok LabelStructureEnum.NUMERICAL
    | Except.error PyError.valueError =>
      if LC_ROMAN.contains label then Except.ok LabelStructureEnum.ROMAN_LC
      else if UC_ROMAN.contains label then Except.ok LabelStructureEnum.ROMAN_UC
      else Except.ok LabelStructureEnum.OTHER

/-- The bucket whose counter one loop iteration increments: the first
matching rule in source order — single-char lowercase letter, single-char
uppercase letter, base-10 integer, lowercase roman numeral, uppercase roman
numeral, OTHER. -/
def classify_label (label : String) : LabelStructureEnum :=
  if label.length = 1 && is_lower_char label then LabelStructureEnum.LATIN_LC
  else if label.length = 1 && is_upper_char label then LabelStructureEnum.LATIN_UC
  else if python_int_ok label then LabelStructureEnum.NUMERICAL
  else if LC_ROMAN.contains label then LabelStructureEnum.ROMAN_LC
  else if UC_ROMAN.contains label then LabelStructureEnum.ROMAN_UC
  else LabelStructureEnum.OTHER

/-- Increment one bucket of the similarity histogram
(`similarity_list[...] += 1`). -/
def bump (h : LabelStructureEnum → Nat) (s : LabelStructureEnum) :
    LabelStructureEnum → Nat :=
  fun t => if t = s then h t + 1 else h t

/-- The vote histogram built by the loop of `from_labels_list`
(lines 110-151): starting from the all-zero dict
`{structure: 0 for structure in LabelStructureEnum}`, each label increments
the bucket of its first matching rule. -/
def similarity (labels_list : List String) : LabelStructureEnum → Nat :=
  labels_list.foldl (fun h label => bump h (classify_label label)) (fun _ => 0)

/-- Python `max(iterable, key=itemgetter(1))` over a nonempty list given as
head and tail: the fold keeps the current best unless a strictly greater
key appears, hence it returns the FIRST maximal element. -/
def pyMax (x : LabelStructureEnum × Nat) (l : List (LabelStructureEnum × Nat)) :
    LabelStructureEnum × Nat :=
  l.foldl (fun best item => if item.2 > best.2 then item else best) x

/-- The selection `max(similarity_list.items(), key=operator.itemgetter(1))[0]`
(lines 153-155). A Python dict iterates in insertion order, which for the
comprehension over `LabelStructureEnum` is the declaration order
NONE, NUMERICAL, LATIN_UC, LATIN_LC, ROMAN_UC, ROMAN_LC, OTHER. -/
def max_pos (h : LabelStructureEnum → Nat) : LabelStructureEnum :=
  (pyMax (LabelStructureEnum.NONE, h LabelStructureEnum.NONE)
    [(LabelStructureEnum.NUMERICAL, h LabelStructureEnum.NUMERICAL),
     (LabelStructureEnum.LATIN_UC, h LabelStructureEnum.LATIN_UC),
     (LabelStructureEnum.LATIN_LC, h LabelStructureEnum.LATIN_LC),
     (LabelStructureEnum.ROMAN_UC, h LabelStructureEnum.ROMAN_UC),
     (LabelStructureEnum.ROMAN_LC, h LabelStructureEnum.ROMAN_LC),
     (LabelStructureEnum.OTHER, h LabelStructureEnum.OTHER)]).1

/-- `LabelStructure` (labels_structure.py, lines 67-88): a scheme together
with the number of labels. Structure equality coincides with the source's
`__eq__` (lines 195-200), which compares both fields. -/
structure LabelStructure where
  labels_type : LabelStructureEnum
  num_labels : Nat
deriving DecidableEq, Repr

/-- `LabelStructure.from_labels_list` (labels_structure.py, lines 91-158):
if the list equals `['_'] * len(labels_list)` the result is
`(NONE, len(labels_list))`; otherwise the scheme is the first-seen maximum
of the vote histogram and the count is the length of the input. -/
def LabelStructure.from_labels_list (labels_list : List String) : LabelStructure :=
  if labels_list = List.replicate labels_list.length "_" then
    ⟨LabelStructureEnum.NONE, labels_list.length⟩
  else
    ⟨max_pos (similarity labels_list), labels_list.length⟩

/-- `LabelStructure.from_labels_list` with the exception plumbing of the
source kept explicit (`Except` threads any uncaught exception out of the
loop): used to show no exception escapes. -/
def from_labels_list_exc (labels_list : List String) : Except PyError LabelStructure :=
  if labels_list = List.replicate labels_list.length "_" then
    Except.ok ⟨LabelStructureEnum.NONE, labels_list.length⟩
  else do
    let hist ← labels_list.foldlM
      (fun h label => do
        let bucket ← classify_label_exc label
        pure (bump h bucket))
      (fun _ => 0)
    pure ⟨max_pos hist, labels_list.length⟩

/-- ASCII digit character for one decimal digit. -/
def digitChar (n : Nat) : Char := Char.ofNat (48 + n)

/-- Decimal digit expansion, accumulator style: embedding of Python
`str(i)` for a non-negative integer. -/
def toDecimalAux (n : Nat) (acc : List Char) : List Char :=
  if n < 10 then digitChar n :: acc
  else toDecimalAux (n / 10) (digitChar (n % 10) :: acc)
termination_by n
decreasing_by
  exact Nat.div_lt_self (by omega) (by omega)

/-- Python `str(i)` for a natural number: its decimal digit string. -/
def natToDecimal (n : Nat) : String := String.mk (toDecimalAux n [])

/-- `LabelStructure.get_core_label_list` (labels_structure.py,
lines 161-192). The source's first branch `if self.labels_type is None`
compares against the Python `None` object, not the enum member `NONE`; for
an enum-typed `labels_type` (the declared type) it never fires, so it has
no counterpart here. `chr(65 + i)` / `chr(97 + i)` build successive
letters; the ROMAN branches slice the fixed tables (`UC_ROMAN[:n]`
truncates at the table length, as Python slices do); NONE and OTHER fall
to the default branch `['_'] * self.num_labels`. -/
def LabelStructure.get_core_label_list (self : LabelStructure) : List String :=
  match self.labels_type with
  | LabelStructureEnum.NUMERICAL =>
      (List.range self.num_labels).map (fun i => natToDecimal i)
  | LabelStructureEnum.LATIN_UC =>
      (List.range self.num_labels).map (fun i => String.mk [Char.ofNat (65 + i)])
  | LabelStructureEnum.LATIN_LC =>
      (List.range self.num_labels).map (fun i => String.mk [Char.ofNat (97 + i)])
  | LabelStructureEnum.ROMAN_UC => UC_ROMAN.take self.num_labels
  | LabelStructureEnum.ROMAN_LC => LC_ROMAN.take self.num_labels
  | LabelStructureEnum.NONE => List.replicate self.num_labels "_"
  | LabelStructureEnum.OTHER => List.replicate self.num_labels "_"

/-- Invariant of the running best element of the `max` fold of
`from_labels_list` after the buckets of declaration index at most `k` have
been scanned: the best records its own vote count, lies within the scanned
prefix, is at least every scanned count, and strictly exceeds the count of
every bucket declared before it (first-seen maximum). -/
def SelInv (h : LabelStructureEnum → Nat) (k : Nat) (b : LabelStructureEnum × Nat) : Prop :=
  b.2 = h b.1 ∧ schemeIdx b.1 ≤ k ∧ (∀ s, schemeIdx s ≤ k → h s ≤ b.2) ∧
    ∀ s, schemeIdx s < schemeIdx b.1 → h s < b.2

/-!
Evaluator machinery (`PanelSegAbstractEvaluator.evaluate`,
compfigsep/utils/detectron_utils/evaluator.py lines 140-177 and
panel_seg/utils/detectron_utils/evaluator.py lines 95-123; both share the
gather / early-return / merge structure).

A per-rank prediction accumulator (`self._predictions`, one Python dict per
worker) is modelled by its `items()` sequence, a list of (class id, entry)
pairs with pairwise distinct keys; a merged dict is modelled as a partial
map from class id to entry, `none` meaning the key is absent.
-/

/-- The merge loop of `evaluate` (evaluator.py lines 157-161):

predictions = defaultdict(dict);
for predictions_per_rank in all_predictions:
  for clsid, lines in predictions_per_rank.items():
    predictions[clsid] = lines

Each assignment overwrites the entry of the class id, so the entry from the
last-merged rank wins. -/
def merge_predictions {V : Type} (all_predictions : List (List (Nat × V))) :
    Nat → Option V :=
  all_predictions.foldl
    (fun predictions predictions_per_rank =>
      predictions_per_rank.foldl
        (fun p kv => fun clsid => if clsid = kv.1 then some kv.2 else p clsid)
        predictions)
    (fun _ => none)

/-- Observable outcome of one `evaluate()` call: whether the merged dict
was built (and its value), whether the task evaluation function was
invoked, whether the export step was triggered, and the returned value
(`none` models Python's bare `return` on non-coordinator workers; on the
coordinator the return value is `OrderedDict({task_name: metrics_dict})`). -/
structure EvaluateResult (V M : Type) where
  merged_predictions : Option (Nat → Option V)
  evaluation_invoked : Bool
  export_invoked : Bool
  returned : Option (String × Option M)

/-- `PanelSegAbstractEvaluator.evaluate` (evaluator.py lines 140-177) after
the collective gather: `all_predictions` is the gathered list of per-rank
accumulators (present on the coordinator), `is_main_process` the rank test.
A worker that is not the coordinator returns bare (`return` with no value,
line 155) and performs no merge, no metric evaluation and no export. On the
coordinator, the ranks are merged, `self._evaluation_function` is invoked
when it is not `None` (line 164-166), the export runs when `self.export`
is set (line 169), and `OrderedDict({self._task_name: metrics_dict})` is
returned. -/
def evaluate {V M : Type} (is_main_process : Bool)
    (all_predictions : List (List (Nat × V)))
    (evaluation_function : Option ((Nat → Option V) → M))
    (export_flag : Bool) (task_name : String) : EvaluateResult V M :=
  if !is_main_process then
    ⟨none, false, false, none⟩
  else
    let predictions := merge_predictions all_predictions
    let metrics_dict := evaluation_function.map (fun f => f predictions)
    ⟨some predictions, evaluation_function.isSome, export_flag,
      some (task_name, metrics_dict)⟩

/-!
Data model for `export_figures_to_detectron_dict`
(compfigsep/data/export.py lines 158-250). Boxes are the raw coordinate
lists carried by panels and labels; `map_label` and `LABEL_CLASS_MAPPING`
live in the absent module `compfigsep/utils/figure/label` and are modelled
from the spec.
-/

/-- A panel: one sub-figure region with its box (spec 3: "a `box` marking
one sub-figure region"). -/
structure Panel where
  box : List Int
deriving DecidableEq, Repr

/-- A label annotation: optional box and optional raw text (spec 3:
"optional `box` (may be absent if unlocalized) and `text`"). Named
`PyLabel` to avoid clashing with the label vocabulary. -/
structure PyLabel where
  box : Option (List Int)
  text : Option String
deriving DecidableEq, Repr

/-- A sub-figure: one panel (possibly absent in a record) paired with
zero-or-one label. -/
structure SubFigure where
  panel : Option Panel
  label : Option PyLabel
deriving DecidableEq, Repr

/-- A figure: image identity plus its ground-truth sub-figures
(`gt_subfigures` may be `None`, export.py line 188 checks it). -/
structure Figure where
  image_path : String
  image_height : Nat
  image_width : Nat
  gt_subfigures : Option (List SubFigure)
deriving DecidableEq, Repr

/-- Modelled from the spec: the closed label-class vocabulary of
`LABEL_CLASS_MAPPING` (spec 4.2: "mapping raw text into a closed
label-class vocabulary"); the module defining it
(`compfigsep/utils/figure/label`) is absent from the sources. Modelled as
the single uppercase letters; the concrete contents are irrelevant to the
claims below. -/
def CLASS_LABELS : List String :=
  (List.range 26).map (fun i => String.mk [Char.ofNat (65 + i)])

/-- Modelled from the spec: `map_label` normalises a raw single-character
label text into the closed vocabulary; absent module, modelled as the
identity. -/
def map_label (text : String) : String := text

/-- Modelled from the spec: `LABEL_CLASS_MAPPING` maps a vocabulary entry
to its class id (its index in the vocabulary). -/
def LABEL_CLASS_MAPPING (label : String) : Nat := CLASS_LABELS.indexOf label

/-- `detectron2.structures.BoxMode.XYXY_ABS` (external constant). -/
def XYXY_ABS : Nat := 0

/-- One annotation dict built by `export_figures_to_detectron_dict` for one
sub-figure; the optional fields model the keys the source conditionally
writes ('bbox', 'category_id' for the box tasks; 'panel_bbox', 'label_bbox'
and 'label' for panel segmentation). -/
structure DetectronObj where
  bbox : Option (List Int)
  bbox_mode : Nat
  category_id : Option Nat
  panel_bbox : Option (List Int)
  label_bbox : Option (List Int)
  label : Option Nat
deriving DecidableEq, Repr

/-- The per-sub-figure body of the export loop (export.py lines 190-244):
`none` models `continue` (the sub-figure contributes no annotation). -/
def detectron_obj (task : String) (subfigure : SubFigure) : Option DetectronObj :=
  if task = "panel_splitting" then
    match subfigure.panel with
    | none => none
    | some panel => some ⟨some panel.box, XYXY_ABS, some 0, none, none, none⟩
  else if task = "label_recog" then
    match subfigure.label with
    | none => none
    | some label =>
      match label.box, label.text with
      | some box, some text =>
        if text.length = 1 then
          some ⟨some box, XYXY_ABS, some (LABEL_CLASS_MAPPING (map_label text)),
            none, none, none⟩
        else none
      | _, _ => none
  else
    match subfigure.panel with
    | none => none
    | some panel =>
      match subfigure.label with
      | some label =>
        match label.box, label.text with
        | some box, some text =>
          if text.length = 1 then
            some ⟨none, XYXY_ABS, none, some panel.box, some box,
              some (LABEL_CLASS_MAPPING (map_label text))⟩
          else some ⟨none, XYXY_ABS, none, some panel.box, none, none⟩
        | _, _ => some ⟨none, XYXY_ABS, none, some panel.box, none, none⟩
      | none => some ⟨none, XYXY_ABS, none, some panel.box, none, none⟩

/-- One record of the exported dataset dict (export.py lines 179-248); the
'annotations' key is written only when `figure.gt_subfigures` is not
`None`. -/
structure DetectronRecord where
  file_name : String
  image_id : Nat
  height : Nat
  width : Nat
  annotations : Option (List DetectronObj)
deriving DecidableEq, Repr

/-- The record built for one figure at a given enumeration index. -/
def detectron_record (task : String) (index : Nat) (figure : Figure) :
    DetectronRecord :=
  ⟨figure.image_path, index, figure.image_height, figure.image_width,
    (figure.gt_subfigures).map (fun subs => subs.filterMap (detectron_obj task))⟩

/-- `export_figures_to_detectron_dict` (export.py lines 158-250). The task
check (lines 170-172) runs before the generator loop, so an unknown task
raises `ValueError` before any figure is consumed; the generator is
modelled by the finite list of figures it yields. -/
def export_figures_to_detectron_dict (figure_generator : List Figure)
    (task : String) : Except String (List DetectronRecord) :=
  if ¬ (["panel_splitting", "label_recog", "panel_seg"].contains task) then
    Except.error ("`task` has to be one of ['panel_splitting', 'label_recog'," ++
      " 'panel_seg'] but is " ++ task)
  else
    Except.ok ((figure_generator.enum).map
      (fun p => detectron_record task p.1 p.2))

/-!
Helper lemmas.
-/

theorem schemeIdx_inj (s t : LabelStructureEnum) (h : schemeIdx s = schemeIdx t) : s = t := by
  cases s <;> cases t <;> first | rfl | (simp [schemeIdx] at h)

theorem schemeIdx_le_six (s : LabelStructureEnum) : schemeIdx s ≤ 6 := by
  cases s <;> simp [schemeIdx]

theorem selInv_step (h : LabelStructureEnum → Nat) (k : Nat) (b : LabelStructureEnum × Nat)
    (s' : LabelStructureEnum) (hidx : schemeIdx s' = k + 1) (hb : SelInv h k b) :
    SelInv h (k + 1) (if (s', h s').2 > b.2 then (s', h s') else b) := by
  obtain ⟨h1, h4, h2, h3⟩ := hb
  simp only [SelInv]
  split
  case isTrue hc =>
    replace hc : b.2 < h s' := hc
    refine ⟨rfl, by show schemeIdx s' ≤ k + 1; omega, ?_, ?_⟩
    · intro s hs
      show h s ≤ h s'
      rcases Nat.lt_or_ge (schemeIdx s) (k + 1) with hlt | hge
      · have := h2 s (by omega)
        omega
      · have heq : s = s' := schemeIdx_inj s s' (by omega)
        subst heq
        exact Nat.le_refl _
    · intro s hs
      show h s < h s'
      replace hs : schemeIdx s < schemeIdx s' := hs
      rw [hidx] at hs
      have := h2 s (by omega)
      omega
  case isFalse hc =>
    replace hc : ¬ b.2 < h s' := hc
    refine ⟨h1, by omega, ?_, h3⟩
    intro s hs
    rcases Nat.lt_or_ge (schemeIdx s) (k + 1) with hlt | hge
    · exact h2 s (by omega)
    · have heq : s = s' := schemeIdx_inj s s' (by omega)
      subst heq
      omega

theorem selInv_base (h : LabelStructureEnum → Nat) :
    SelInv h 0 (LabelStructureEnum.NONE, h LabelStructureEnum.NONE) := by
  refine ⟨rfl, by simp [schemeIdx], ?_, ?_⟩
  · intro s hs
    have heq : s = LabelStructureEnum.NONE := schemeIdx_inj s _ (by simpa [schemeIdx] using hs)
    subst heq
    exact Nat.le_refl _
  · intro s hs
    simp [schemeIdx] at hs

theorem max_pos_selInv (h : LabelStructureEnum → Nat) :
    SelInv h 6 (pyMax (LabelStructureEnum.NONE, h LabelStructureEnum.NONE)
      [(LabelStructureEnum.NUMERICAL, h LabelStructureEnum.NUMERICAL),
       (LabelStructureEnum.LATIN_UC, h LabelStructureEnum.LATIN_UC),
       (LabelStructureEnum.LATIN_LC, h LabelStructureEnum.LATIN_LC),
       (LabelStructureEnum.ROMAN_UC, h LabelStructureEnum.ROMAN_UC),
       (LabelStructureEnum.ROMAN_LC, h LabelStructureEnum.ROMAN_LC),
       (LabelStructureEnum.OTHER, h LabelStructureEnum.OTHER)]) := by
  exact selInv_step h 5 _ _ rfl (selInv_step h 4 _ _ rfl (selInv_step h 3 _ _ rfl
    (selInv_step h 2 _ _ rfl (selInv_step h 1 _ _ rfl
      (selInv_step h 0 _ _ rfl (selInv_base h))))))

theorem max_pos_le (h : LabelStructureEnum → Nat) (s : LabelStructureEnum) :
    h s ≤ h (max_pos h) := by
  obtain ⟨h1, _, h2, _⟩ := max_pos_selInv h
  rw [max_pos, ← h1]
  exact h2 s (schemeIdx_le_six s)

theorem max_pos_first (h : LabelStructureEnum → Nat) (s : LabelStructureEnum)
    (hlt : schemeIdx s < schemeIdx (max_pos h)) :
    h s < h (max_pos h) := by
  obtain ⟨h1, _, _, h3⟩ := max_pos_selInv h
  rw [max_pos, ← h1]
  exact h3 s (by rw [max_pos] at hlt; exact hlt)

theorem similarity_count (labels : List String) (s : LabelStructureEnum) :
    similarity labels s = labels.countP (fun t => decide (classify_label t = s)) := by
  suffices h : ∀ h0 : LabelStructureEnum → Nat,
      (labels.foldl (fun h label => bump h (classify_label label)) h0) s =
        h0 s + labels.countP (fun t => decide (classify_label t = s)) by
    simpa [similarity] using h (fun _ => 0)
  induction labels with
  | nil => intro h0; simp
  | cons a t ih =>
    intro h0
    rw [List.foldl_cons, List.countP_cons, ih (bump h0 (classify_label a))]
    simp only [bump]
    by_cases hc : classify_label a = s
    · simp [hc]
      omega
    · simp [hc, Ne.symm hc]

theorem similarity_all (labels : List String) (s0 : LabelStructureEnum)
    (hall : ∀ t ∈ labels, classify_label t = s0) (s : LabelStructureEnum) :
    similarity labels s = if s = s0 then labels.length else 0 := by
  rw [similarity_count]
  split
  case isTrue hs =>
    subst hs
    apply List.countP_eq_length.2
    intro t ht
    simpa using hall t ht
  case isFalse hs =>
    apply List.countP_eq_zero.2
    intro t ht
    simp only [decide_eq_true_eq]
    rw [hall t ht]
    exact Ne.symm hs

theorem from_labels_list_all_classified (labels : List String) (s0 : LabelStructureEnum)
    (hne : labels ≠ []) (hnp : labels ≠ List.replicate labels.length "_")
    (hall : ∀ t ∈ labels, classify_label t = s0) :
    LabelStructure.from_labels_list labels = ⟨s0, labels.length⟩ := by
  rw [LabelStructure.from_labels_list, if_neg hnp]
  have hsim := similarity_all labels s0 hall
  have hw : max_pos (similarity labels) = s0 := by
    by_contra hne2
    have hmax := max_pos_le (similarity labels) s0
    rw [hsim s0, if_pos rfl, hsim _, if_neg hne2] at hmax
    exact hne (List.eq_nil_of_length_eq_zero (by omega))
  rw [hw]

theorem isDigit_of_toNat (c : Char) (h1 : 48 ≤ c.toNat) (h2 : c.toNat ≤ 57) :
    c.isDigit = true := by
  simp only [Char.isDigit, Char.le_def, UInt32.le_def]
  simp [Char.le_def, UInt32.le_def]
  exact ⟨h1, h2⟩

theorem digitChar_spec (m : Nat) (hm : m < 10) : (digitChar m).toNat = 48 + m := by
  interval_cases m <;> decide

theorem toDecimalAux_spec (n : Nat) (acc : List Char) :
    ∃ l, toDecimalAux n acc = l ++ acc ∧ l ≠ [] ∧
      ∀ c ∈ l, 48 ≤ c.toNat ∧ c.toNat ≤ 57 := by
  induction n using Nat.strong_induction_on generalizing acc with
  | _ n ih =>
    rw [toDecimalAux]
    split
    case isTrue h =>
      refine ⟨[digitChar n], rfl, by simp, ?_⟩
      intro c hc
      simp only [List.mem_singleton] at hc
      subst hc
      rw [digitChar_spec n h]
      omega
    case isFalse h =>
      obtain ⟨l, hl, hlne, hdig⟩ :=
        ih (n / 10) (Nat.div_lt_self (by omega) (by omega)) (digitChar (n % 10) :: acc)
      refine ⟨l ++ [digitChar (n % 10)], ?_, by simp, ?_⟩
      · rw [hl]
        simp
      · intro c hc
        rcases List.mem_append.1 hc with h1 | h2
        · exact hdig c h1
        · simp only [List.mem_singleton] at h2
          subst h2
          rw [digitChar_spec _ (Nat.mod_lt _ (by omega))]
          omega

theorem natToDecimal_digits (n : Nat) :
    (natToDecimal n).data ≠ [] ∧ ∀ c ∈ (natToDecimal n).data, 48 ≤ c.toNat ∧ c.toNat ≤ 57 := by
  obtain ⟨l, hl, hlne, hdig⟩ := toDecimalAux_spec n []
  rw [natToDecimal]
  show toDecimalAux n [] ≠ [] ∧ ∀ c ∈ toDecimalAux n [], 48 ≤ c.toNat ∧ c.toNat ≤ 57
  rw [hl, List.append_nil]
  exact ⟨hlne, hdig⟩

theorem is_lower_char_digits (s : String)
    (hdig : ∀ c ∈ s.data, 48 ≤ c.toNat ∧ c.toNat ≤ 57) : is_lower_char s = false := by
  rw [is_lower_char]
  cases hsd : s.data with
  | nil => rfl
  | cons c cs =>
    cases cs with
    | nil =>
      have hc := hdig c (by simp [hsd])
      simp only []
      simp
      omega
    | cons c2 cs2 => rfl

theorem is_upper_char_digits (s : String)
    (hdig : ∀ c ∈ s.data, 48 ≤ c.toNat ∧ c.toNat ≤ 57) : is_upper_char s = false := by
  rw [is_upper_char]
  cases hsd : s.data with
  | nil => rfl
  | cons c cs =>
    cases cs with
    | nil =>
      have hc := hdig c (by simp [hsd])
      simp
      omega
    | cons c2 cs2 => rfl

theorem python_int_ok_digits (s : String) (hne : s.data ≠ [])
    (hdig : ∀ c ∈ s.data, 48 ≤ c.toNat ∧ c.toNat ≤ 57) : python_int_ok s = true := by
  rw [python_int_ok]
  cases hsd : s.data with
  | nil => exact absurd hsd hne
  | cons c cs =>
    have hc := hdig c (by simp [hsd])
    have hminus : c ≠ '-' := by
      intro h
      subst h
      exact absurd hc (by decide)
    have hplus : c ≠ '+' := by
      intro h
      subst h
      exact absurd hc (by decide)
    simp [hminus, hplus]
    refine ⟨isDigit_of_toNat c hc.1 hc.2, ?_⟩
    intro x hx
    have hx2 := hdig x (by simp [hsd, hx])
    exact isDigit_of_toNat x hx2.1 hx2.2



theorem classify_digit_string (s : String) (hne : s.data ≠ [])
    (hdig : ∀ c ∈ s.data, 48 ≤ c.toNat ∧ c.toNat ≤ 57) :
    classify_label s = LabelStructureEnum.NUMERICAL := by
  rw [classify_label, is_lower_char_digits s hdig, is_upper_char_digits s hdig,
    python_int_ok_digits s hne hdig]
  simp

theorem classify_natToDecimal (i : Nat) :
    classify_label (natToDecimal i) = LabelStructureEnum.NUMERICAL :=
  classify_digit_string _ (natToDecimal_digits i).1 (natToDecimal_digits i).2

theorem classify_latin_uc (i : Nat) (hi : i < 26) :
    classify_label (String.mk [Char.ofNat (65 + i)]) = LabelStructureEnum.LATIN_UC := by
  interval_cases i <;> decide

theorem classify_latin_lc (i : Nat) (hi : i < 26) :
    classify_label (String.mk [Char.ofNat (97 + i)]) = LabelStructureEnum.LATIN_LC := by
  interval_cases i <;> decide

theorem classify_label_exc_eq (label : String) :
    classify_label_exc label = Except.ok (classify_label label) := by
  rw [classify_label_exc, classify_label, int_exc]
  by_cases h1 : (label.length = 1 && is_lower_char label) = true
  · simp [h1]
  · simp only [Bool.not_eq_true] at h1
    by_cases h2 : (label.length = 1 && is_upper_char label) = true
    · simp [h1, h2]
    · simp only [Bool.not_eq_true] at h2
      by_cases h3 : python_int_ok label = true
      · simp [h1, h2, h3]
      · simp only [Bool.not_eq_true] at h3
        simp only [h1, h2, h3, Bool.false_eq_true, if_false]
        split_ifs <;> rfl

theorem foldlM_classify_ok (l : List String) (h0 : LabelStructureEnum → Nat) :
    (l.foldlM (fun h label => do
        let bucket ← classify_label_exc label
        pure (bump h bucket)) h0 : Except PyError _) =
      Except.ok (l.foldl (fun h label => bump h (classify_label label)) h0) := by
  induction l generalizing h0 with
  | nil => rfl
  | cons a t ih =>
    rw [List.foldlM_cons, List.foldl_cons, classify_label_exc_eq]
    exact ih (bump h0 (classify_label a))

theorem from_labels_list_exc_ok (labels : List String) :
    from_labels_list_exc labels = Except.ok (LabelStructure.from_labels_list labels) := by
  rw [from_labels_list_exc, LabelStructure.from_labels_list]
  split
  · rfl
  · rw [foldlM_classify_ok]
    rfl

theorem lookup_eq_none_of_not_mem {V : Type} (t : List (Nat × V)) (k : Nat)
    (h : k ∉ t.map Prod.fst) : t.lookup k = none := by
  induction t with
  | nil => rfl
  | cons ab t ih =>
    obtain ⟨a, b⟩ := ab
    simp only [List.map_cons, List.mem_cons] at h
    push_neg at h
    rw [List.lookup]
    have hk : (k == a) = false := by simpa using h.1
    rw [hk]
    exact ih h.2

theorem dict_fold_lookup {V : Type} (r : List (Nat × V)) (p : Nat → Option V) (k : Nat)
    (hnd : (r.map Prod.fst).Nodup) :
    r.foldl (fun p kv => fun clsid => if clsid = kv.1 then some kv.2 else p clsid) p k =
      match r.lookup k with
      | some v => some v
      | none => p k := by
  induction r generalizing p with
  | nil => rfl
  | cons ab t ih =>
    obtain ⟨a, b⟩ := ab
    simp only [List.map_cons, List.nodup_cons] at hnd
    rw [List.foldl_cons, ih _ hnd.2, List.lookup]
    by_cases hk : k = a
    · subst hk
      rw [lookup_eq_none_of_not_mem t k hnd.1]
      simp
    · have hk2 : (k == a) = false := by simpa using hk
      rw [hk2]
      cases h2 : t.lookup k with
      | some v => rfl
      | none => simp [hk]

theorem merge_predictions_getLast {V : Type} (ranks : List (List (Nat × V))) (k : Nat)
    (hnd : ∀ r ∈ ranks, (r.map Prod.fst).Nodup) :
    merge_predictions ranks k = (ranks.filterMap (fun r => r.lookup k)).getLast? := by
  induction ranks using List.reverseRecOn with
  | nil => rfl
  | append_singleton ranks r ih =>
    have step : merge_predictions (ranks ++ [r]) k =
        r.foldl (fun p kv => fun clsid => if clsid = kv.1 then some kv.2 else p clsid)
          (merge_predictions ranks) k := by
      simp only [merge_predictions, List.foldl_append, List.foldl_cons, List.foldl_nil]
    rw [step, dict_fold_lookup r _ k (hnd r (by simp)), List.filterMap_append]
    cases hl : r.lookup k with
    | some v => simp [hl]
    | none =>
      simp only [hl, List.filterMap_cons_none, List.filterMap_nil, List.append_nil]
      exact ih (fun r2 hr2 => hnd r2 (by simp [hr2]))

theorem no_single_letter_cond (label : String)
    (hno : ¬(label.length = 1 ∧ (is_lower_char label = true ∨ is_upper_char label = true))) :
    (label.length = 1 && is_lower_char label) = false ∧
    (label.length = 1 && is_upper_char label) = false := by
  by_cases hlen : label.length = 1
  · push_neg at hno
    obtain ⟨hlow, hup⟩ := hno hlen
    simp [hlen, hlow, hup]
  · simp [hlen]

theorem classify_no_rule (label : String)
    (hno : ¬(label.length = 1 ∧ (is_lower_char label = true ∨ is_upper_char label = true)))
    (hpi : python_int_ok label = false)
    (hlc : label ∉ LC_ROMAN) (huc : label ∉ UC_ROMAN) :
    classify_label label = LabelStructureEnum.OTHER := by
  obtain ⟨h1, h2⟩ := no_single_letter_cond label hno
  simp [classify_label, h1, h2, hpi, hlc, huc]

/-- Claim C1: for every non-empty list of tokens that is not all-placeholder,
`from_labels_list` picks a scheme of maximal vote count, and every scheme
declared strictly earlier than the chosen one has a strictly smaller vote
count (stable first-seen maximum over the declaration order NONE,
NUMERICAL, LATIN_UC, LATIN_LC, ROMAN_UC, ROMAN_LC, OTHER); in particular
`from_labels_list(["A","1"])` resolves the one-vote tie between NUMERICAL
and LATIN_UC to NUMERICAL, with count 2. -/
theorem claim_C1 (labels : List String) (_hne : labels ≠ [])
    (hnp : labels ≠ List.replicate labels.length "_") :
    (∀ s, similarity labels s ≤
        similarity labels (LabelStructure.from_labels_list labels).labels_type) ∧
    (∀ s, schemeIdx s < schemeIdx (LabelStructure.from_labels_list labels).labels_type →
        similarity labels s <
          similarity labels (LabelStructure.from_labels_list labels).labels_type) ∧
    LabelStructure.from_labels_list ["A", "1"] = ⟨LabelStructureEnum.NUMERICAL, 2⟩ := by
  have hres : (LabelStructure.from_labels_list labels).labels_type =
      max_pos (similarity labels) := by
    rw [LabelStructure.from_labels_list, if_neg hnp]
  refine ⟨?_, ?_, by decide⟩
  · intro s
    rw [hres]
    exact max_pos_le _ s
  · intro s hs
    rw [hres] at hs ⊢
    exact max_pos_first _ s hs

theorem claim_C1_witness :
    (["A", "1"] : List String) ≠ [] ∧
    LabelStructure.from_labels_list ["A", "1"] = ⟨LabelStructureEnum.NUMERICAL, 2⟩ :=
  ⟨by decide, (claim_C1 ["A", "1"] (by decide) (by decide)).2.2⟩

/-- Claim C3: each token is classified by trying, in this fixed order:
single-character lowercase letter (LATIN_LC), single-character uppercase
letter (LATIN_UC), base-10 integer (NUMERICAL), lowercase roman numeral
(ROMAN_LC), uppercase roman numeral (ROMAN_UC), else OTHER — first match
wins; consequently "I" votes LATIN_UC, never ROMAN_UC. -/
theorem claim_C3 (label : String) :
    (label.length = 1 → is_lower_char label = true →
      classify_label label = LabelStructureEnum.LATIN_LC) ∧
    (label.length = 1 → is_lower_char label = false → is_upper_char label = true →
      classify_label label = LabelStructureEnum.LATIN_UC) ∧
    (¬(label.length = 1 ∧ (is_lower_char label = true ∨ is_upper_char label = true)) →
      python_int_ok label = true →
      classify_label label = LabelStructureEnum.NUMERICAL) ∧
    (¬(label.length = 1 ∧ (is_lower_char label = true ∨ is_upper_char label = true)) →
      python_int_ok label = false → label ∈ LC_ROMAN →
      classify_label label = LabelStructureEnum.ROMAN_LC) ∧
    (¬(label.length = 1 ∧ (is_lower_char label = true ∨ is_upper_char label = true)) →
      python_int_ok label = false → label ∉ LC_ROMAN → label ∈ UC_ROMAN →
      classify_label label = LabelStructureEnum.ROMAN_UC) ∧
    (¬(label.length = 1 ∧ (is_lower_char label = true ∨ is_upper_char label = true)) →
      python_int_ok label = false → label ∉ LC_ROMAN → label ∉ UC_ROMAN →
      classify_label label = LabelStructureEnum.OTHER) ∧
    classify_label "I" = LabelStructureEnum.LATIN_UC := by
  refine ⟨?_, ?_, ?_, ?_, ?_, ?_, by decide⟩
  · intro hlen hlow
    simp [classify_label, hlen, hlow]
  · intro hlen hlow hup
    simp [classify_label, hlen, hlow, hup]
  · intro hno hpi
    obtain ⟨h1, h2⟩ := no_single_letter_cond label hno
    simp [classify_label, h1, h2, hpi]
  · intro hno hpi hlc
    obtain ⟨h1, h2⟩ := no_single_letter_cond label hno
    simp [classify_label, h1, h2, hpi, hlc]
  · intro hno hpi hlc huc
    obtain ⟨h1, h2⟩ := no_single_letter_cond label hno
    simp [classify_label, h1, h2, hpi, hlc, huc]
  · intro hno hpi hlc huc
    exact classify_no_rule label hno hpi hlc huc

theorem claim_C3_witness :
    classify_label "b" = LabelStructureEnum.LATIN_LC ∧
    classify_label "I" = LabelStructureEnum.LATIN_UC ∧
    classify_label "ii" = LabelStructureEnum.ROMAN_LC :=
  ⟨(claim_C3 "b").1 (by decide) (by decide),
   (claim_C3 "I").2.1 (by decide) (by decide) (by decide),
   (claim_C3 "ii").2.2.2.1 (by decide) (by decide) (by decide)⟩

/-- Claim C4: `from_labels_list` takes a majority vote: for every non-empty
list that is not all-placeholder, the chosen scheme receives a maximal
number of votes; in particular `["1","2","x"]` yields (NUMERICAL, 3) and
`["i","ii","iii"]` yields (ROMAN_LC, 3) although the single-character "i"
votes for a different bucket than "ii" and "iii". -/
theorem claim_C4 (labels : List String) (_hne : labels ≠ [])
    (hnp : labels ≠ List.replicate labels.length "_") :
    (∀ s, similarity labels s ≤
        similarity labels (LabelStructure.from_labels_list labels).labels_type) ∧
    LabelStructure.from_labels_list ["1", "2", "x"] =
      ⟨LabelStructureEnum.NUMERICAL, 3⟩ ∧
    LabelStructure.from_labels_list ["i", "ii", "iii"] =
      ⟨LabelStructureEnum.ROMAN_LC, 3⟩ := by
  have hres : (LabelStructure.from_labels_list labels).labels_type =
      max_pos (similarity labels) := by
    rw [LabelStructure.from_labels_list, if_neg hnp]
  refine ⟨?_, by decide, by decide⟩
  intro s
  rw [hres]
  exact max_pos_le _ s

theorem claim_C4_witness :
    similarity ["1", "2", "x"] LabelStructureEnum.ROMAN_LC ≤
      similarity ["1", "2", "x"]
        (LabelStructure.from_labels_list ["1", "2", "x"]).labels_type :=
  (claim_C4 ["1", "2", "x"] (by decide) (by decide)).1 LabelStructureEnum.ROMAN_LC

/-- Claim C5: an all-placeholder input (each token "_") yields
(NONE, length) directly, and for every input whatsoever the count field of
the result equals the length of the input list. -/
theorem claim_C5 (labels : List String) :
    ((∀ t ∈ labels, t = "_") →
      LabelStructure.from_labels_list labels = ⟨LabelStructureEnum.NONE, labels.length⟩) ∧
    (LabelStructure.from_labels_list labels).num_labels = labels.length := by
  constructor
  · intro hall
    have hrep : labels = List.replicate labels.length "_" :=
      List.eq_replicate_iff.2 ⟨rfl, hall⟩
    rw [LabelStructure.from_labels_list, if_pos hrep]
  · rw [LabelStructure.from_labels_list]
    split <;> rfl

theorem claim_C5_witness :
    LabelStructure.from_labels_list ["_", "_", "_"] = ⟨LabelStructureEnum.NONE, 3⟩ :=
  (claim_C5 ["_", "_", "_"]).1 (by decide)

/-- Claim C7: `from_labels_list` raises no exception on any input: the
exception-explicit embedding always returns `ok` (the `ValueError` of
`int(label)` is caught), and a token matching none of the letter, integer
or roman rules — in particular one on which integer parsing fails — is
bucketed as OTHER. -/
theorem claim_C7 (labels : List String) (label : String) :
    from_labels_list_exc labels = Except.ok (LabelStructure.from_labels_list labels) ∧
    (int_exc label = Except.error PyError.valueError →
      ¬(label.length = 1 ∧ (is_lower_char label = true ∨ is_upper_char label = true)) →
      label ∉ LC_ROMAN → label ∉ UC_ROMAN →
      classify_label label = LabelStructureEnum.OTHER) := by
  refine ⟨from_labels_list_exc_ok labels, ?_⟩
  intro hint hno hlc huc
  have hpi : python_int_ok label = false := by
    rw [int_exc] at hint
    by_cases h : python_int_ok label = true
    · rw [if_pos h] at hint
      exact absurd hint (by simp)
    · simpa using h
  exact classify_no_rule label hno hpi hlc huc

theorem claim_C7_witness :
    from_labels_list_exc ["@@"] = Except.ok (LabelStructure.from_labels_list ["@@"]) ∧
    classify_label "@@" = LabelStructureEnum.OTHER :=
  ⟨(claim_C7 ["@@"] "@@").1,
   (claim_C7 ["@@"] "@@").2 (by rfl) (by decide) (by decide) (by decide)⟩

/-- Claim C6: after the gather, the coordinator merges the per-rank
prediction dicts by iterating them in order and assigning each rank's entry
to its class key, so for every class id the merged entry is the one from
the last rank that contains it — last-writer-wins per class key, with no
deduplication or concatenation across ranks. (Per-rank key lists are
duplicate-free, as Python dict items are.) -/
theorem claim_C6 {V : Type} (ranks : List (List (Nat × V))) (k : Nat)
    (hnd : ∀ r ∈ ranks, (r.map Prod.fst).Nodup) :
    merge_predictions ranks k = (ranks.filterMap (fun r => r.lookup k)).getLast? :=
  merge_predictions_getLast ranks k hnd

theorem claim_C6_witness :
    merge_predictions [[(5, 100)], [(5, 200), (7, 300)]] 5 =
      ([[(5, 100)], [(5, 200), (7, 300)]].filterMap (fun r => r.lookup 5)).getLast? ∧
    ([[(5, 100)], [(5, 200), (7, 300)]].filterMap (fun r => r.lookup 5)).getLast? =
      some 200 :=
  ⟨claim_C6 [[(5, 100)], [(5, 200), (7, 300)]] 5 (by decide), by decide⟩

/-- Claim C8: `export_figures_to_detectron_dict` fails with the fatal
`ValueError` exactly when the task is not one of 'panel_splitting',
'label_recog', 'panel_seg', and that failure is decided before the figure
generator is consumed (the outcome on a bad task does not depend on the
figures at all); an accepted task never produces the error. -/
theorem claim_C8 (task : String) (figs figs2 : List Figure) :
    ((export_figures_to_detectron_dict figs task).isOk = true ↔
      task ∈ (["panel_splitting", "label_recog", "panel_seg"] : List String)) ∧
    (task ∉ (["panel_splitting", "label_recog", "panel_seg"] : List String) →
      export_figures_to_detectron_dict figs task =
        export_figures_to_detectron_dict figs2 task) := by
  constructor
  · rw [export_figures_to_detectron_dict]
    split
    case isTrue h =>
      have hmem : task ∉ (["panel_splitting", "label_recog", "panel_seg"] : List String) := by
        simpa using h
      simp [Except.isOk, Except.toBool, hmem]
    case isFalse h =>
      have hmem : task ∈ (["panel_splitting", "label_recog", "panel_seg"] : List String) := by
        simpa using not_not.1 h
      simp [Except.isOk, Except.toBool, hmem]
  · intro hmem
    rw [export_figures_to_detectron_dict, export_figures_to_detectron_dict,
      if_pos (by simpa using hmem), if_pos (by simpa using hmem)]

theorem claim_C8_witness :
    ((export_figures_to_detectron_dict [] "bogus_task").isOk = true ↔
      ("bogus_task" : String) ∈ (["panel_splitting", "label_recog", "panel_seg"] : List String)) ∧
    export_figures_to_detectron_dict [] "bogus_task" =
      export_figures_to_detectron_dict
        [⟨"img.jpg", 100, 200, some [⟨some ⟨[0, 0, 10, 10]⟩, none⟩]⟩] "bogus_task" :=
  ⟨(claim_C8 "bogus_task" [] []).1,
   (claim_C8 "bogus_task" []
     [⟨"img.jpg", 100, 200, some [⟨some ⟨[0, 0, 10, 10]⟩, none⟩]⟩]).2 (by decide)⟩

/-- Claim C9: on a worker that is not the coordinator, `evaluate` returns
bare immediately after the gather — no merged dict is built, the
evaluation function is not invoked, the export is not triggered, and the
returned value is empty (Python `None`), not an error. -/
theorem claim_C9 {V M : Type} (all_predictions : List (List (Nat × V)))
    (evaluation_function : Option ((Nat → Option V) → M))
    (export_flag : Bool) (task_name : String) (is_main : Bool)
    (h : is_main = false) :
    evaluate is_main all_predictions evaluation_function export_flag task_name =
      ⟨none, false, false, none⟩ := by
  subst h
  rfl

theorem claim_C9_witness :
    @evaluate Nat Nat false [[(0, 1)]] none true "panel_splitting" =
      ⟨none, false, false, none⟩ :=
  claim_C9 [[(0, 1)]] none true "panel_splitting" false rfl

theorem natToDecimal_zero : natToDecimal 0 = "0" := by
  rw [natToDecimal, toDecimalAux]
  rfl

/-- Claim C2 counterexample: the claim "the returned list's length equals
the count field for every LabelStructure" fails at (ROMAN_UC, 31): the
fixed roman table has 30 entries and the Python slice `UC_ROMAN[:31]`
truncates, so the list has length 30, not 31. -/
theorem claim_C2_counterexample :
    ((⟨LabelStructureEnum.ROMAN_UC, 31⟩ : LabelStructure).get_core_label_list).length ≠
      (⟨LabelStructureEnum.ROMAN_UC, 31⟩ : LabelStructure).num_labels := by
  decide

/-- Claim C2 (amended): `get_core_label_list` returns an ordered list whose
length equals the count for the NUMERICAL, LATIN and placeholder schemes
and equals min(count, table length) for the ROMAN schemes; contents by
scheme: NUMERICAL gives the zero-based decimal strings, LATIN_UC/LATIN_LC
successive letters from 'A'/'a', ROMAN_UC/ROMAN_LC the first count entries
of the fixed roman table (truncated at the table), NONE/OTHER count
repetitions of the placeholder "_". -/
theorem claim_C2 (ls : LabelStructure) (i : Nat) :
    (ls.labels_type = LabelStructureEnum.ROMAN_UC →
      ls.get_core_label_list.length = min ls.num_labels UC_ROMAN.length) ∧
    (ls.labels_type = LabelStructureEnum.ROMAN_LC →
      ls.get_core_label_list.length = min ls.num_labels LC_ROMAN.length) ∧
    (ls.labels_type ≠ LabelStructureEnum.ROMAN_UC →
      ls.labels_type ≠ LabelStructureEnum.ROMAN_LC →
      ls.get_core_label_list.length = ls.num_labels) ∧
    (ls.labels_type = LabelStructureEnum.NUMERICAL → i < ls.num_labels →
      ls.get_core_label_list[i]? = some (natToDecimal i)) ∧
    (ls.labels_type = LabelStructureEnum.LATIN_UC → i < ls.num_labels →
      ls.get_core_label_list[i]? = some (String.mk [Char.ofNat (65 + i)])) ∧
    (ls.labels_type = LabelStructureEnum.LATIN_LC → i < ls.num_labels →
      ls.get_core_label_list[i]? = some (String.mk [Char.ofNat (97 + i)])) ∧
    (ls.labels_type = LabelStructureEnum.ROMAN_UC →
      ls.get_core_label_list = UC_ROMAN.take ls.num_labels) ∧
    (ls.labels_type = LabelStructureEnum.ROMAN_LC →
      ls.get_core_label_list = LC_ROMAN.take ls.num_labels) ∧
    ((ls.labels_type = LabelStructureEnum.NONE ∨
        ls.labels_type = LabelStructureEnum.OTHER) →
      ls.get_core_label_list = List.replicate ls.num_labels "_") := by
  obtain ⟨t, n⟩ := ls
  refine ⟨?_, ?_, ?_, ?_, ?_, ?_, ?_, ?_, ?_⟩ <;> intro h
  · subst h
    simp [LabelStructure.get_core_label_list, List.length_take]
  · subst h
    simp [LabelStructure.get_core_label_list, List.length_take]
  · intro h2
    cases t <;> simp_all [LabelStructure.get_core_label_list]
  · intro hi
    subst h
    simp [LabelStructure.get_core_label_list, List.getElem?_map, List.getElem?_range, hi]
  · intro hi
    subst h
    simp [LabelStructure.get_core_label_list, List.getElem?_map, List.getElem?_range, hi]
  · intro hi
    subst h
    simp [LabelStructure.get_core_label_list, List.getElem?_map, List.getElem?_range, hi]
  · subst h
    rfl
  · subst h
    rfl
  · rcases h with h | h <;> (subst h; rfl)

theorem claim_C2_witness :
    (⟨LabelStructureEnum.NUMERICAL, 3⟩ : LabelStructure).get_core_label_list[1]? =
      some (natToDecimal 1) ∧
    ((⟨LabelStructureEnum.ROMAN_UC, 31⟩ : LabelStructure).get_core_label_list).length =
      min 31 UC_ROMAN.length :=
  ⟨(claim_C2 ⟨LabelStructureEnum.NUMERICAL, 3⟩ 1).2.2.2.1 rfl (by decide),
   (claim_C2 ⟨LabelStructureEnum.ROMAN_UC, 31⟩ 0).1 rfl⟩

/-- Claim C10: classification round-trips generation for NUMERICAL at every
count n ≥ 1 and for LATIN_UC / LATIN_LC at every count 1 ≤ n ≤ 26, where
LabelStructure equality is the source's field-wise `__eq__`; the round-trip
fails for the ROMAN schemes: the singleton ROMAN_LC sequence ["i"]
classifies as LATIN_LC. -/
theorem claim_C10 (n : Nat) :
    (1 ≤ n →
      LabelStructure.from_labels_list
          ((⟨LabelStructureEnum.NUMERICAL, n⟩ : LabelStructure).get_core_label_list) =
        ⟨LabelStructureEnum.NUMERICAL, n⟩) ∧
    (1 ≤ n → n ≤ 26 →
      LabelStructure.from_labels_list
          ((⟨LabelStructureEnum.LATIN_UC, n⟩ : LabelStructure).get_core_label_list) =
        ⟨LabelStructureEnum.LATIN_UC, n⟩) ∧
    (1 ≤ n → n ≤ 26 →
      LabelStructure.from_labels_list
          ((⟨LabelStructureEnum.LATIN_LC, n⟩ : LabelStructure).get_core_label_list) =
        ⟨LabelStructureEnum.LATIN_LC, n⟩) ∧
    LabelStructure.from_labels_list
        ((⟨LabelStructureEnum.ROMAN_LC, 1⟩ : LabelStructure).get_core_label_list) =
      ⟨LabelStructureEnum.LATIN_LC, 1⟩ ∧
    (⟨LabelStructureEnum.LATIN_LC, 1⟩ : LabelStructure) ≠
      ⟨LabelStructureEnum.ROMAN_LC, 1⟩ := by
  refine ⟨?_, ?_, ?_, by decide, by decide⟩
  · intro hn
    show LabelStructure.from_labels_list ((List.range n).map (fun i => natToDecimal i)) = _
    have hlen : ((List.range n).map (fun i => natToDecimal i)).length = n := by simp
    have hmem : natToDecimal 0 ∈ (List.range n).map (fun i => natToDecimal i) :=
      List.mem_map_of_mem _ (List.mem_range.2 (by omega))
    rw [from_labels_list_all_classified _ LabelStructureEnum.NUMERICAL ?_ ?_ ?_, hlen]
    · intro hnil
      rw [hnil] at hlen
      simp at hlen
      omega
    · intro hrep
      have hall := (List.eq_replicate_iff.1 hrep).2
      have hph := hall _ hmem
      rw [natToDecimal_zero] at hph
      exact absurd hph (by decide)
    · intro tok htok
      obtain ⟨i, _, rfl⟩ := List.mem_map.1 htok
      exact classify_natToDecimal i
  · intro hn hn26
    show LabelStructure.from_labels_list
        ((List.range n).map (fun i => String.mk [Char.ofNat (65 + i)])) = _
    have hlen : ((List.range n).map (fun i => String.mk [Char.ofNat (65 + i)])).length = n := by
      simp
    have hmem : String.mk [Char.ofNat (65 + 0)] ∈
        (List.range n).map (fun i => String.mk [Char.ofNat (65 + i)]) :=
      List.mem_map_of_mem _ (List.mem_range.2 (by omega))
    rw [from_labels_list_all_classified _ LabelStructureEnum.LATIN_UC ?_ ?_ ?_, hlen]
    · intro hnil
      rw [hnil] at hlen
      simp at hlen
      omega
    · intro hrep
      have hall := (List.eq_replicate_iff.1 hrep).2
      have := hall _ hmem
      exact absurd this (by decide)
    · intro tok htok
      obtain ⟨i, hi, rfl⟩ := List.mem_map.1 htok
      exact classify_latin_uc i (by have := List.mem_range.1 hi; omega)
  · intro hn hn26
    show LabelStructure.from_labels_list
        ((List.range n).map (fun i => String.mk [Char.ofNat (97 + i)])) = _
    have hlen : ((List.range n).map (fun i => String.mk [Char.ofNat (97 + i)])).length = n := by
      simp
    have hmem : String.mk [Char.ofNat (97 + 0)] ∈
        (List.range n).map (fun i => String.mk [Char.ofNat (97 + i)]) :=
      List.mem_map_of_mem _ (List.mem_range.2 (by omega))
    rw [from_labels_list_all_classified _ LabelStructureEnum.LATIN_LC ?_ ?_ ?_, hlen]
    · intro hnil
      rw [hnil] at hlen
      simp at hlen
      omega
    · intro hrep
      have hall := (List.eq_replicate_iff.1 hrep).2
      have := hall _ hmem
      exact absurd this (by decide)
    · intro tok htok
      obtain ⟨i, hi, rfl⟩ := List.mem_map.1 htok
      exact classify_latin_lc i (by have := List.mem_range.1 hi; omega)

theorem claim_C10_witness :
    LabelStructure.from_labels_list
        ((⟨LabelStructureEnum.NUMERICAL, 3⟩ : LabelStructure).get_core_label_list) =
      ⟨LabelStructureEnum.NUMERICAL, 3⟩ ∧
    LabelStructure.from_labels_list
        ((⟨LabelStructureEnum.LATIN_UC, 3⟩ : LabelStructure).get_core_label_list) =
      ⟨LabelStructureEnum.LATIN_UC, 3⟩ :=
  ⟨(claim_C10 3).1 (by decide), (claim_C10 3).2.1 (by decide) (by decide)⟩

end PanelSeg
